import Mathlib

/-!
Shallow embedding of the spanish-tools vocabulary pipeline
(`src/analyze_vocab.py` and `src/sync_vocab.py`) and proofs about it.

String values are modelled by Lean `String`; the Python string
operations used by the code (`strip`, `upper`, `lower`, slicing,
lexicographic comparison by code point) are re-implemented over
`String.data` so that every definition evaluates inside the kernel.
Python `dict` built by repeated assignment is modelled as a cons-list
of key/value pairs where the most recent binding is consed on the
front and lookup takes the first hit (so, as in Python, the latest
assignment for a key wins).  Python `None`-able values are `Option`.
-/

/-! ## Python string primitives -/

/-- Python `str.strip()`: drop whitespace from both ends. -/
def pyStrip (s : String) : String :=
  ⟨((s.data.dropWhile Char.isWhitespace).reverse.dropWhile Char.isWhitespace).reverse⟩

/-- Python `str.upper()` (ASCII range, which covers every value the code compares). -/
def pyUpper (s : String) : String := ⟨s.data.map Char.toUpper⟩

/-- Python `str.lower()` (ASCII range). -/
def pyLower (s : String) : String := ⟨s.data.map Char.toLower⟩

/-- Python `s[:n]`. -/
def pyTake (n : Nat) (s : String) : String := ⟨s.data.take n⟩

/-- Python `<` on strings: lexicographic comparison by code point. -/
def listLtB : List Char → List Char → Bool
  | [], [] => false
  | [], _ :: _ => true
  | _ :: _, [] => false
  | a :: as, b :: bs =>
    if a.toNat < b.toNat then true
    else if b.toNat < a.toNat then false
    else listLtB as bs

/-- Python `<=` on strings: lexicographic comparison by code point. -/
def listLeB : List Char → List Char → Bool
  | [], _ => true
  | _ :: _, [] => false
  | a :: as, b :: bs =>
    if a.toNat < b.toNat then true
    else if b.toNat < a.toNat then false
    else listLeB as bs

/-! ## `analyze_vocab.py`: Gemini call with retry and backoff -/

/-- `RATE_LIMIT_DELAY = 5` (seconds between Gemini calls / backoff base). -/
def RATE_LIMIT_DELAY : Nat := 5

/-- `MAX_RETRIES = 5`. -/
def MAX_RETRIES : Nat := 5

/-- Outcome of one HTTP request to the generation API, as distinguished by
`call_gemini`: status 429, another error status (`raise_for_status` throws),
or a successful response carrying the generated text. -/
inductive GeminiResp where
  | rateLimited : GeminiResp
  | httpError : GeminiResp
  | success (text : String) : GeminiResp
deriving DecidableEq, Repr

/-- Result of `call_gemini`: the generated text together with the 0-based
attempt on which it was obtained, an HTTP error raised out of the function
by `raise_for_status`, or the final `Exception("Rate limited after all
retries")` after the loop exhausts `MAX_RETRIES` attempts. -/
inductive CallResult where
  | ok (attempt : Nat) (text : String) : CallResult
  | httpFailed (attempt : Nat) : CallResult
  | exhausted : CallResult
deriving DecidableEq, Repr

/-- The retry loop of `call_gemini`, starting at `attempt` with `fuel`
attempts remaining; `responses` gives the API's response to each attempt.
Returns the list of backoff waits performed (in order) and the result. -/
def callGeminiAux (responses : Nat → GeminiResp) : Nat → Nat → List Nat × CallResult
  | _, 0 => ([], .exhausted)
  | attempt, fuel + 1 =>
    match responses attempt with
    | .rateLimited =>
      let rest := callGeminiAux responses (attempt + 1) fuel
      (RATE_LIMIT_DELAY * 2 ^ attempt :: rest.1, rest.2)
    | .httpError => ([], .httpFailed attempt)
    | .success t => ([], .ok attempt t)

/-- `call_gemini(prompt, api_key)`: `for attempt in range(MAX_RETRIES)` with
exponential backoff on HTTP 429. -/
def call_gemini (responses : Nat → GeminiResp) : List Nat × CallResult :=
  callGeminiAux responses 0 MAX_RETRIES

/-! ## `analyze_vocab.py`: needs_generation and row classification -/

/-- The sentinel error markers recognised by `needs_generation`. -/
def SENTINEL_MARKERS : List String :=
  ["#ERROR!", "#VALUE!", "#REF!", "#N/A", "#NAME?", "LOADING..."]

/-- `needs_generation(value)`: true when the cell is empty/whitespace-only or
holds (after strip + upper) one of the sentinel error markers. -/
def needs_generation (value : String) : Bool :=
  if value = "" || pyStrip value = "" then true
  else SENTINEL_MARKERS.contains (pyUpper (pyStrip value))

/-- The `while len(row) < 5: row.append("")` padding in `main`. -/
def padTo5 (row : List String) : List String :=
  row ++ List.replicate (5 - row.length) ""

/-- One entry of `words_to_process` in `analyze_vocab.main`. -/
structure WordTask where
  row : Nat
  spanish : String
  english : String
  need_analysis : Bool
  need_other : Bool
deriving DecidableEq, Repr

/-- One iteration of the classification loop in `analyze_vocab.main` for data
row index `i` (0-based, header at 0): pad both rows to width 5, skip rows with
an empty Spanish cell, and flag the row when either Sheet2 cell B or E needs
generation. -/
def classifyRow (sheet2 : List (List String)) (i : Nat) (s1r : List String) :
    Option WordTask :=
  let s1_row := padTo5 s1r
  let s2_row := padTo5 (sheet2.getD i [])
  let spanish := s1_row.getD 1 ""
  let english := s1_row.getD 2 ""
  if spanish = "" then none
  else
    let need_analysis := needs_generation (s2_row.getD 1 "")
    let need_other := needs_generation (s2_row.getD 4 "")
    if need_analysis || need_other then
      some ⟨i + 1, spanish, english, need_analysis, need_other⟩
    else none

/-- `words_to_process` as built by `analyze_vocab.main`: the classification
loop over data rows `1 .. len(sheet1_rows) - 1`. -/
def words_to_process (sheet1 sheet2 : List (List String)) : List WordTask :=
  (List.range' 1 (sheet1.length - 1)).filterMap
    (fun i => classifyRow sheet2 i (sheet1.getD i []))

/-! ## `analyze_vocab.py`: batched enrichment loop -/

/-- `BATCH_SIZE = 10`. -/
def BATCH_SIZE : Nat := 10

/-- One pending update: a cell range such as `Sheet2!B7` and the value. -/
structure CellUpdate where
  range : String
  value : String
deriving DecidableEq, Repr

/-- State of the enrichment loop: the `pending_updates` buffer, the sizes of
the batch writes performed so far (in order), and the updates already written
to the sheet. -/
structure EnrichState where
  pending : List CellUpdate
  flushes : List Nat
  store : List CellUpdate
deriving DecidableEq, Repr

/-- The successful updates contributed by one word: for each needed field
whose `call_gemini` ran without an exception, the corresponding cell update
(an exception is caught, logged and contributes nothing). -/
def wordUpdates (t : WordTask) (resA resO : Option String) : List CellUpdate :=
  (match t.need_analysis, resA with
   | true, some r => [⟨"Sheet2!B" ++ toString t.row, r⟩]
   | _, _ => []) ++
  (match t.need_other, resO with
   | true, some r => [⟨"Sheet2!E" ++ toString t.row, r⟩]
   | _, _ => [])

/-- The `if len(pending_updates) >= BATCH_SIZE` batched write at the end of a
word's iteration: write the whole buffer and clear it. -/
def flushIfFull (st : EnrichState) : EnrichState :=
  if BATCH_SIZE ≤ st.pending.length then
    { pending := [], flushes := st.flushes ++ [st.pending.length],
      store := st.store ++ st.pending }
  else st

/-- One iteration of the per-word enrichment loop: append the word's
successful updates to the buffer, then flush if the buffer is full. -/
def enrichWord (st : EnrichState) (item : WordTask × Option String × Option String) :
    EnrichState :=
  flushIfFull { st with pending := st.pending ++ wordUpdates item.1 item.2.1 item.2.2 }

/-- The `if pending_updates:` final batched write after the loop. -/
def finalFlush (st : EnrichState) : EnrichState :=
  if st.pending = [] then st
  else { pending := [], flushes := st.flushes ++ [st.pending.length],
         store := st.store ++ st.pending }

/-- The whole enrichment loop of `analyze_vocab.main` over `words_to_process`,
each task paired with the outcome of its (up to two) generation calls. -/
def runEnrichment (items : List (WordTask × Option String × Option String)) :
    EnrichState :=
  finalFlush (items.foldl enrichWord ⟨[], [], []⟩)

/-- All successful updates of a run, in completion order. -/
def allUpdates (items : List (WordTask × Option String × Option String)) :
    List CellUpdate :=
  items.foldl (fun acc it => acc ++ wordUpdates it.1 it.2.1 it.2.2) []

/-- Number of field enrichments that complete successfully in a run. -/
def totalCompletions (items : List (WordTask × Option String × Option String)) : Nat :=
  (allUpdates items).length

/-- Number of Gemini calls issued for a list of enrichment items: one per
needed field of each task (made regardless of whether it succeeds). -/
def geminiCallCount (items : List (WordTask × Option String × Option String)) : Nat :=
  items.foldl
    (fun n it =>
      n + (if it.1.need_analysis then 1 else 0) + (if it.1.need_other then 1 else 0)) 0

/-! ## `analyze_vocab.py`: startup credential checks -/

/-- How `analyze_vocab.main` starts up: either `sys.exit(1)` with a printed
message, or proceeding into the pipeline with both secrets in hand. -/
inductive StartupResult where
  | exited (code : Nat) (msg : String) : StartupResult
  | proceed (geminiKey credsBlob : String) : StartupResult
deriving DecidableEq, Repr

/-- Python truthiness test `if not value:` for an `os.environ.get` result:
the variable is unset or holds the empty string. -/
def falsyEnv : Option String → Bool
  | none => true
  | some s => s = ""

/-- The startup of `analyze_vocab.main`: check `GEMINI_API_KEY`, then (inside
`get_sheets_service`) `GOOGLE_SHEETS_CREDENTIALS`; each missing secret prints
an error and exits with status 1 before any sheet read or generation call. -/
def analyze_startup (gemini creds : Option String) : StartupResult :=
  if falsyEnv gemini then
    .exited 1 "Error: GEMINI_API_KEY environment variable not set"
  else if falsyEnv creds then
    .exited 1 "Error: GOOGLE_SHEETS_CREDENTIALS environment variable not set"
  else .proceed (gemini.getD "") (creds.getD "")

/-! ## `sync_vocab.py`: payload data and lookup-table construction -/

/-- One element of the payload's `words` array, with the keys read by the
scraper; a key whose value may be missing (Python `dict.get` returning
`None`) is an `Option`. -/
structure RawWordEntry where
  id : Option Nat
  source : Option String
  popularity : String
deriving DecidableEq, Repr

/-- One element of the payload's `senses` array. -/
structure RawSense where
  id : Option Nat
  wordId : Option Nat
  contextEn : String
  contextEs : String
  partOfSpeechId : Option Nat
  gender : String
deriving DecidableEq, Repr

/-- One element of the payload's `translations` array. -/
structure RawTranslation where
  id : Option Nat
  senseId : Option Nat
  translation : Option String
deriving DecidableEq, Repr

/-- One element of the payload's `vocabTranslations` array. -/
structure RawVocabTranslation where
  translationId : Option Nat
  createdAt : String
deriving DecidableEq, Repr

/-- The decoded `window.SD_COMPONENT_DATA` object, restricted to the four
arrays the scraper reads. -/
structure PayloadData where
  words : List RawWordEntry
  senses : List RawSense
  translations : List RawTranslation
  vocabTranslations : List RawVocabTranslation
deriving DecidableEq, Repr

/-- The value stored in `word_to_sense` for one sense. -/
structure StoredSense where
  id : Option Nat
  contextEn : String
  contextEs : String
  partOfSpeechId : Option Nat
  gender : String
deriving DecidableEq, Repr

/-- The value stored in `sense_to_translation` for one translation. -/
structure StoredTranslation where
  text : Option String
  id : Option Nat
deriving DecidableEq, Repr

/-- Python `d[k] = v`: the new binding shadows any earlier one. -/
def dictInsert {K V : Type} (d : List (K × V)) (k : K) (v : V) : List (K × V) :=
  (k, v) :: d

/-- Python `d.get(k)`: the most recent binding for `k`, if any. -/
def dictGet? {K V : Type} [BEq K] (d : List (K × V)) (k : K) : Option V :=
  (d.find? (fun e => e.1 == k)).map (fun e => e.2)

/-- `sense_to_translation`: `for t in translations: d[t.get("senseId")] = {...}`. -/
def sense_to_translation (d : PayloadData) : List (Option Nat × StoredTranslation) :=
  d.translations.foldl (fun m t => dictInsert m t.senseId ⟨t.translation, t.id⟩) []

/-- `translation_to_date`: keeps `createdAt[:10]` keyed by `translationId`,
skipping entries with an empty `createdAt`. -/
def translation_to_date (d : PayloadData) : List (Option Nat × String) :=
  d.vocabTranslations.foldl
    (fun m vt =>
      if vt.createdAt ≠ "" then dictInsert m vt.translationId (pyTake 10 vt.createdAt)
      else m) []

/-- The sense dict stored per word by `word_to_sense`. -/
def storedOfSense (s : RawSense) : StoredSense :=
  ⟨s.id, s.contextEn, s.contextEs, s.partOfSpeechId, s.gender⟩

/-- `word_to_sense`: `for s in senses: d[s.get("wordId")] = {...}`. -/
def word_to_sense (d : PayloadData) : List (Option Nat × StoredSense) :=
  d.senses.foldl (fun m s => dictInsert m s.wordId (storedOfSense s)) []

/-! ## `sync_vocab.py`: joining words into records -/

/-- The `PART_OF_SPEECH` code table. -/
def PART_OF_SPEECH : List (Nat × String) :=
  [(1, "adjective"), (2, "transitive verb"), (3, "reflexive verb"), (4, "noun"),
   (5, "phrase"), (9, "adverb"), (10, "preposition"), (11, "conjunction"),
   (12, "interjection"), (13, "intransitive verb"), (14, "reciprocal verb"),
   (20, "proper noun"), (22, "pronominal verb"), (25, "transitive verb phrase"),
   (26, "intransitive verb phrase"), (27, "plural noun"),
   (32, "pronominal verb phrase")]

/-- `PART_OF_SPEECH.get(sense.get("partOfSpeechId"), str(sense.get("partOfSpeechId", "")))`:
when the word has no sense or the sense has no part-of-speech id, both the
lookup key and the stringified default degrade to the empty string. -/
def pos_label (sense : Option StoredSense) : String :=
  match sense.bind (fun s => s.partOfSpeechId) with
  | some n => ((PART_OF_SPEECH.find? (fun e => e.1 == n)).map (fun e => e.2)).getD (toString n)
  | none => ""

/-- One scraped vocabulary record (the dict appended to `words`); `english`
is an `Option` because `trans.get("text", "")` can surface a Python `None`
stored under the `"text"` key, and `ai_analysis` is absent until `main`
fills it. -/
structure ScrapedWord where
  spanish : String
  english : Option String
  context_en : String
  part_of_speech : String
  popularity : String
  date_added : String
  ai_analysis : Option String
deriving DecidableEq, Repr

/-- The body of the `for word_entry in word_list:` loop: `None` or empty
`source` is skipped (`continue`), otherwise the word is joined with its
sense, the sense's translation and the translation's creation date. -/
def joinWord (w2s : List (Option Nat × StoredSense))
    (s2t : List (Option Nat × StoredTranslation))
    (t2d : List (Option Nat × String)) (w : RawWordEntry) : Option ScrapedWord :=
  match w.source with
  | none => none
  | some spanish =>
    if spanish = "" then none
    else
      let sense := dictGet? w2s w.id
      let senseId := sense.bind (fun s => s.id)
      let trans : Option StoredTranslation :=
        match senseId with
        | none => none
        | some n => if n = 0 then none else dictGet? s2t (some n)
      let english : Option String :=
        match trans with
        | none => some ""
        | some tr => tr.text
      let date_added := (dictGet? t2d (trans.bind (fun tr => tr.id))).getD ""
      let pos0 := pos_label sense
      let gender := match sense with | none => "" | some s => s.gender
      let pos := if gender = "" then pos0 else pos0 ++ " (" ++ gender ++ ")"
      some { spanish := spanish, english := english,
             context_en := (match sense with | none => "" | some s => s.contextEn),
             part_of_speech := pos, popularity := w.popularity,
             date_added := date_added, ai_analysis := none }

/-- `scrape_spanishdict_list` after the payload is decoded: build the three
lookup dicts, then join every word entry, silently skipping entries with an
empty source. -/
def scrape_words (d : PayloadData) : List ScrapedWord :=
  d.words.filterMap
    (joinWord (word_to_sense d) (sense_to_translation d) (translation_to_date d))

/-! ## `sync_vocab.py`: existing analyses, generation, main-loop dedup -/

/-- One row of the existing CSV as `csv.DictReader` presents it: the
`Spanish` column and the (possibly absent) `AI Analysis` column. -/
structure CsvRow where
  spanish : String
  ai_analysis : Option String
deriving DecidableEq, Repr

/-- `load_existing_analyses`: `analyses[row["Spanish"]] = analysis` for every
row whose stripped `AI Analysis` cell is non-empty. -/
def load_existing_analyses (rows : List CsvRow) : List (String × String) :=
  rows.foldl
    (fun d r =>
      let analysis := pyStrip (r.ai_analysis.getD "")
      if analysis ≠ "" then dictInsert d r.spanish analysis else d) []

/-- `generate_ai_analysis(word)`: a falsy `GEMINI_API_KEY` returns `""`
without any API call; otherwise the call is made and an exception degrades
to `""`.  Returns the analysis text paired with whether a call was made. -/
def generate_ai_analysis (apiKey : Option String) (apiResult : Option String) :
    String × Bool :=
  if falsyEnv apiKey then ("", false)
  else
    match apiResult with
    | some text => (pyStrip text, true)
    | none => ("", true)

/-- The dedup loop of `sync_vocab.main`: for each scraped word, copy the
stored analysis when the Spanish word is a key of `existing`, otherwise
count one fresh generation call. Returns the number of generation calls. -/
def sync_new_count (existing : List (String × String)) (words : List ScrapedWord) :
    Nat :=
  words.foldl
    (fun n w => if (dictGet? existing w.spanish).isSome then n else n + 1) 0

/-! ## `sync_vocab.py`: CSV export -/

/-- The sort key of `export_to_csv`:
`(w.get("date_added", ""), w["spanish"].lower())` compared as Python does,
lexicographically by code point. -/
def exportLe (a b : ScrapedWord) : Prop :=
  (listLtB a.date_added.data b.date_added.data
    || (a.date_added.data == b.date_added.data
        && listLeB (pyLower a.spanish).data (pyLower b.spanish).data)) = true

instance : DecidableRel exportLe := fun _a _b => Bool.decEq _ true

/-- The fixed header row written by `export_to_csv`. -/
def exportHeader : List String :=
  ["Date Added", "Spanish", "English", "Part of Speech", "Popularity", "AI Analysis"]

/-- One CSV data row; Python's `csv` module writes `None` as the empty
string, and `w.get("ai_analysis", "")` defaults an absent field to `""`. -/
def exportRow (w : ScrapedWord) : List String :=
  [w.date_added, w.spanish, w.english.getD "", w.part_of_speech, w.popularity,
   w.ai_analysis.getD ""]

/-- `export_to_csv(words)`: `words.sort(key=...)` sorts the caller's list in
place (the first component is the list as the caller sees it afterwards),
then the header and one row per record are written. -/
def export_to_csv (words : List ScrapedWord) : List ScrapedWord × List (List String) :=
  let sorted := List.insertionSort exportLe words
  (sorted, exportHeader :: sorted.map exportRow)

/-! ## Example inputs used by witnesses and counterexamples -/

/-- Response schedule: three 429s, then success. -/
def c1exResponses : Nat → GeminiResp :=
  fun k => if k < 3 then .rateLimited else .success "generated"

/-- Response schedule: every attempt is rate-limited. -/
def c1exAllLimited : Nat → GeminiResp := fun _ => .rateLimited

/-- Sheet1 fixture: header plus one data row for the word `hola`. -/
def c2exSheet1 : List (List String) :=
  [["Date Added", "Spanish", "English", "POS", "Popularity"],
   ["2024-01-01", "hola", "hello", "noun", "1"]]

/-- Sheet2 fixture: the analysis cell of the data row holds the `#ERROR!`
sentinel while the other-translations cell is already filled. -/
def c2exSheet2 : List (List String) :=
  [["", "hdr", "", "", "hdr"],
   ["", "#error!", "", "", "some translations"]]

/-- Payload fixture: one word with two senses sharing its word id, and two
translations sharing the first sense's id. -/
def c3exPayload : PayloadData :=
  { words := [⟨some 1, some "hola", "50"⟩],
    senses := [⟨some 10, some 1, "", "", some 4, ""⟩,
               ⟨some 20, some 1, "", "", some 1, ""⟩],
    translations := [⟨some 100, some 10, some "first"⟩,
                     ⟨some 200, some 10, some "second"⟩],
    vocabTranslations := [] }

/-- CSV fixture: two persisted rows for the same Spanish word, both with a
non-empty analysis. -/
def c3exRows : List CsvRow :=
  [⟨"hola", some "first analysis"⟩, ⟨"hola", some "second analysis"⟩]

/-- Fully enriched Sheet2 fixture matching `c2exSheet1`: both enrichment
cells of the data row hold real, non-sentinel values. -/
def c4exSheet2 : List (List String) :=
  [["", "hdr", "", "", "hdr"],
   ["", "a real analysis", "", "", "some translations"]]

/-- A store mapping that already contains the only scraped word. -/
def c4exExisting : List (String × String) := [("hola", "a real analysis")]

/-- A scraped word list whose single word is present in `c4exExisting`. -/
def c4exWords : List ScrapedWord :=
  [⟨"hola", some "hello", "", "noun", "50", "2024-01-01", none⟩]

/-- An enrichment item for sheet row `k` needing only the analysis field,
whose single call succeeds. -/
def c5single (k : Nat) : WordTask × Option String × Option String :=
  (⟨k, "palabra", "word", true, false⟩, some "analysis text", none)

/-- An enrichment item for sheet row `k` needing both fields, with both
calls succeeding. -/
def c5double (k : Nat) : WordTask × Option String × Option String :=
  (⟨k, "palabra", "word", true, true⟩, some "analysis text", some "other text")

/-- A run with 23 successful completions: 9 single-field words, then one
two-field word, then 12 single-field words.  Its flush sizes are 11, 10, 2. -/
def c5exItems : List (WordTask × Option String × Option String) :=
  (List.range' 2 9).map c5single ++ [c5double 11] ++ (List.range' 12 12).map c5single

/-- A run of 23 single-field completions; its flush sizes are 10, 10, 3. -/
def c5exAllSingles : List (WordTask × Option String × Option String) :=
  (List.range' 2 23).map c5single

/-- Record fixture: `amor`, dated 2024-01-05. -/
def c6exAmor : ScrapedWord :=
  ⟨"amor", some "love", "", "noun", "80", "2024-01-05", none⟩

/-- Record fixture: `Zorro`, dated 2024-02-01. -/
def c6exZorro : ScrapedWord :=
  ⟨"Zorro", some "fox", "", "noun", "60", "2024-02-01", none⟩

/-- Payload fixture for the joiner: an empty-source word, a missing-source
word, and a word with no matching sense. -/
def c7exPayload : PayloadData :=
  { words := [⟨some 1, some "", "10"⟩, ⟨some 2, none, "20"⟩,
              ⟨some 3, some "casa", "30"⟩],
    senses := [], translations := [], vocabTranslations := [] }

/-- Sheet2 fixture for padding: the data row has only 4 cells, with a real
analysis already in column B. -/
def c9exSheet2Short : List (List String) :=
  [["", "hdr", "", "", "hdr"],
   ["", "a real analysis", "", ""]]

/-- Sheet2 fixture consisting only of the header: every data row index lies
past its end. -/
def c9exSheet2Past : List (List String) :=
  [["", "hdr", "", "", "hdr"]]

/-! ## Lemmas about the retry loop -/

lemma callGeminiAux_succ (responses : Nat → GeminiResp) (attempt fuel : Nat) :
    callGeminiAux responses attempt (fuel + 1) =
      match responses attempt with
      | .rateLimited =>
        (RATE_LIMIT_DELAY * 2 ^ attempt :: (callGeminiAux responses (attempt + 1) fuel).1,
         (callGeminiAux responses (attempt + 1) fuel).2)
      | .httpError => ([], .httpFailed attempt)
      | .success t => ([], .ok attempt t) := rfl

lemma callGeminiAux_length_le (responses : Nat → GeminiResp) :
    ∀ fuel attempt, (callGeminiAux responses attempt fuel).1.length ≤ fuel := by
  intro fuel
  induction fuel with
  | zero => intro attempt; simp [callGeminiAux]
  | succ n ih =>
    intro attempt
    rw [callGeminiAux_succ]
    cases h : responses attempt with
    | rateLimited => simpa using ih (attempt + 1)
    | httpError => simp
    | success t => simp

lemma callGeminiAux_getD (responses : Nat → GeminiResp) :
    ∀ fuel attempt k, k < (callGeminiAux responses attempt fuel).1.length →
      (callGeminiAux responses attempt fuel).1.getD k 0 =
        RATE_LIMIT_DELAY * 2 ^ (attempt + k) := by
  intro fuel
  induction fuel with
  | zero => intro attempt k hk; simp [callGeminiAux] at hk
  | succ n ih =>
    intro attempt k hk
    rw [callGeminiAux_succ] at hk ⊢
    cases h : responses attempt with
    | rateLimited =>
      simp only [h] at hk ⊢
      cases k with
      | zero => simp
      | succ m =>
        simp only [List.length_cons, Nat.succ_lt_succ_iff] at hk
        simp only [List.getD_cons_succ]
        rw [show attempt + (m + 1) = attempt + 1 + m by omega]
        exact ih (attempt + 1) m hk
    | httpError => simp [h] at hk
    | success t => simp [h] at hk

lemma callGeminiAux_all_limited (responses : Nat → GeminiResp) :
    ∀ fuel attempt,
      (∀ k, attempt ≤ k → k < attempt + fuel → responses k = .rateLimited) →
      (callGeminiAux responses attempt fuel).2 = .exhausted := by
  intro fuel
  induction fuel with
  | zero => intro attempt _; simp [callGeminiAux]
  | succ n ih =>
    intro attempt hall
    rw [callGeminiAux_succ]
    have h : responses attempt = .rateLimited := hall attempt le_rfl (by omega)
    rw [h]
    exact ih (attempt + 1) (fun k hk hk' => hall k (by omega) (by omega))

lemma callGeminiAux_ok_lt (responses : Nat → GeminiResp) :
    ∀ fuel attempt a t, (callGeminiAux responses attempt fuel).2 = .ok a t →
      a < attempt + fuel := by
  intro fuel
  induction fuel with
  | zero => intro attempt a t h; simp [callGeminiAux] at h
  | succ n ih =>
    intro attempt a t h
    rw [callGeminiAux_succ] at h
    cases hr : responses attempt with
    | rateLimited =>
      rw [hr] at h
      have := ih (attempt + 1) a t h
      omega
    | httpError => rw [hr] at h; simp at h
    | success s => rw [hr] at h; simp at h; omega

/-! ## Claim theorems: C1 -/

/-- C1: on a rate-limit response at attempt `k` the call waits
`RATE_LIMIT_DELAY * 2 ^ k` before retrying; at most `MAX_RETRIES` attempts
are made; when every attempt is rate-limited the call raises the final
"rate limited after all retries" error; and on three consecutive 429s
followed by a success the waits are `base, 2*base, 4*base` and the call
succeeds on the 4th attempt. -/
theorem call_gemini_retry_backoff (responses : Nat → GeminiResp) (t : String) :
    (∀ k, k < (call_gemini responses).1.length →
        (call_gemini responses).1.getD k 0 = RATE_LIMIT_DELAY * 2 ^ k)
    ∧ (call_gemini responses).1.length ≤ MAX_RETRIES
    ∧ (∀ a s, (call_gemini responses).2 = .ok a s → a < MAX_RETRIES)
    ∧ ((∀ k, k < MAX_RETRIES → responses k = .rateLimited) →
        (call_gemini responses).2 = .exhausted)
    ∧ (responses 0 = .rateLimited → responses 1 = .rateLimited →
        responses 2 = .rateLimited → responses 3 = .success t →
        call_gemini responses =
          ([RATE_LIMIT_DELAY, 2 * RATE_LIMIT_DELAY, 4 * RATE_LIMIT_DELAY], .ok 3 t)) := by
  refine ⟨?_, ?_, ?_, ?_, ?_⟩
  · intro k hk
    simpa using callGeminiAux_getD responses MAX_RETRIES 0 k hk
  · exact callGeminiAux_length_le responses MAX_RETRIES 0
  · intro a s h
    simpa using callGeminiAux_ok_lt responses MAX_RETRIES 0 a s h
  · intro hall
    exact callGeminiAux_all_limited responses MAX_RETRIES 0
      (fun k _ hk => hall k (by simpa using hk))
  · intro h0 h1 h2 h3
    show callGeminiAux responses 0 (4 + 1) = _
    rw [callGeminiAux_succ, h0]
    show (_ :: (callGeminiAux responses 1 (3 + 1)).1, _) = _
    rw [callGeminiAux_succ, h1]
    show (_ :: _ :: (callGeminiAux responses 2 (2 + 1)).1, _) = _
    rw [callGeminiAux_succ, h2]
    show (_ :: _ :: _ :: (callGeminiAux responses 3 (1 + 1)).1, _) = _
    rw [callGeminiAux_succ, h3]
    simp [RATE_LIMIT_DELAY]

/-- C1 witness: the theorem applied to the concrete schedules: three 429s
then success gives waits 5, 10, 20 and success on attempt 3 (the 4th), and
an all-429 schedule exhausts the retries. -/
theorem call_gemini_retry_backoff_witness :
    call_gemini c1exResponses = ([5, 10, 20], .ok 3 "generated")
    ∧ (call_gemini c1exAllLimited).2 = .exhausted := by
  constructor
  · have h := (call_gemini_retry_backoff c1exResponses "generated").2.2.2.2
      (by decide) (by decide) (by decide) (by decide)
    simpa [RATE_LIMIT_DELAY] using h
  · exact (call_gemini_retry_backoff c1exAllLimited "").2.2.2.1
      (fun k _ => by simp [c1exAllLimited])

/-! ## Claim theorems: C2 -/

/-- C2: `needs_generation` holds exactly when the stored cell value is empty
or whitespace-only, or its stripped, upper-cased form is one of the fixed
sentinel error markers; in particular a data row whose Sheet1 word is
non-empty and whose Sheet2 analysis cell holds a sentinel is classified as
needing the analysis field, even though that cell is non-empty. -/
theorem needs_generation_sentinel (value : String)
    (sheet1 sheet2 : List (List String)) (i : Nat) :
    (needs_generation value = true ↔
      (pyStrip value = "" ∨ pyUpper (pyStrip value) ∈ SENTINEL_MARKERS))
    ∧ (1 ≤ i → i < sheet1.length →
        (padTo5 (sheet1.getD i [])).getD 1 "" ≠ "" →
        pyUpper (pyStrip ((padTo5 (sheet2.getD i [])).getD 1 "")) ∈ SENTINEL_MARKERS →
        ∃ t ∈ words_to_process sheet1 sheet2,
          t.row = i + 1 ∧ t.need_analysis = true) := by
  have hiff : ∀ v : String, needs_generation v = true ↔
      (pyStrip v = "" ∨ pyUpper (pyStrip v) ∈ SENTINEL_MARKERS) := by
    intro v
    unfold needs_generation
    by_cases h1 : pyStrip v = ""
    · simp [h1]
    · by_cases h0 : v = ""
      · subst h0; exact absurd (by decide) h1
      · simp [h0, h1]
  refine ⟨hiff value, ?_⟩
  intro hi1 hi2 hsp hsent
  have hng : needs_generation ((padTo5 (sheet2.getD i [])).getD 1 "") = true :=
    (hiff _).mpr (Or.inr hsent)
  have h_eq : classifyRow sheet2 i (sheet1.getD i []) =
      some ⟨i + 1, (padTo5 (sheet1.getD i [])).getD 1 "",
            (padTo5 (sheet1.getD i [])).getD 2 "", true,
            needs_generation ((padTo5 (sheet2.getD i [])).getD 4 "")⟩ := by
    unfold classifyRow
    rw [if_neg hsp, hng]
    simp
  refine ⟨_, List.mem_filterMap.mpr ⟨i, ?_, h_eq⟩, rfl, rfl⟩
  rw [List.mem_range'_1]
  omega

/-- C2 witness: `#error!` (non-empty) is classified as needing generation,
and the fixture row whose analysis cell holds it lands in
`words_to_process` flagged `need_analysis`. -/
theorem needs_generation_sentinel_witness :
    needs_generation "#error!" = true
    ∧ "#error!" ≠ ""
    ∧ ∃ t ∈ words_to_process c2exSheet1 c2exSheet2,
        t.row = 2 ∧ t.need_analysis = true :=
  ⟨(needs_generation_sentinel "#error!" [] [] 0).1.mpr (Or.inr (by decide)),
   by decide,
   (needs_generation_sentinel "x" c2exSheet1 c2exSheet2 1).2
     (by decide) (by decide) (by decide) (by decide)⟩

/-! ## Claim theorems: C3 -/

lemma dictGet_foldl_insert {α K V : Type} [BEq K] [LawfulBEq K]
    (f : α → Option (K × V)) (xs : List α) (m : List (K × V)) (k : K) :
    dictGet? (xs.foldl (fun d x =>
        match f x with
        | some kv => dictInsert d kv.1 kv.2
        | none => d) m) k
    = match xs.reverse.find? (fun x =>
          match f x with
          | some kv => kv.1 == k
          | none => false) with
      | some x => (f x).map (fun kv => kv.2)
      | none => dictGet? m k := by
  induction xs generalizing m with
  | nil => simp
  | cons a as ih =>
    simp only [List.foldl_cons, List.reverse_cons]
    rw [ih, List.find?_append]
    cases hfind : as.reverse.find? (fun x =>
        match f x with
        | some kv => kv.1 == k
        | none => false) with
    | some x => simp
    | none =>
      simp only [Option.none_or]
      cases hfa : f a with
      | none => simp [hfa]
      | some kv =>
        simp only [hfa]
        by_cases hk : (kv.1 == k) = true
        · rw [List.find?_cons_of_pos _ (by simp [hfa, hk])]
          simp [hfa, dictGet?, dictInsert, hk]
        · rw [List.find?_cons_of_neg _ (by simp [hfa, hk]), List.find?_nil]
          simp [dictGet?, dictInsert, hk]

lemma word_to_sense_lookup (d : PayloadData) (k : Option Nat) :
    dictGet? (word_to_sense d) k =
      (d.senses.reverse.find? (fun s => s.wordId == k)).map storedOfSense :=
  dictGet_foldl_insert (fun s : RawSense => some (s.wordId, storedOfSense s))
    d.senses [] k

lemma sense_to_translation_lookup (d : PayloadData) (k : Option Nat) :
    dictGet? (sense_to_translation d) k =
      (d.translations.reverse.find? (fun t => t.senseId == k)).map
        (fun t => (⟨t.translation, t.id⟩ : StoredTranslation)) :=
  dictGet_foldl_insert
    (fun t : RawTranslation => some (t.senseId, (⟨t.translation, t.id⟩ : StoredTranslation)))
    d.translations [] k

lemma load_existing_analyses_aux (rows : List CsvRow)
    (m : List (String × String)) (key : String) :
    dictGet? (rows.foldl (fun d r =>
        let analysis := pyStrip (r.ai_analysis.getD "")
        if analysis ≠ "" then dictInsert d r.spanish analysis else d) m) key =
      match rows.reverse.find? (fun r =>
          pyStrip (r.ai_analysis.getD "") ≠ "" ∧ r.spanish == key) with
      | some r => some (pyStrip (r.ai_analysis.getD ""))
      | none => dictGet? m key := by
  induction rows generalizing m with
  | nil => simp
  | cons a as ih =>
    simp only [List.foldl_cons, List.reverse_cons]
    rw [ih, List.find?_append]
    cases hfind : as.reverse.find? (fun r =>
        pyStrip (r.ai_analysis.getD "") ≠ "" ∧ r.spanish == key) with
    | some x => simp
    | none =>
      simp only [Option.none_or]
      by_cases ha : pyStrip (a.ai_analysis.getD "") ≠ ""
      · by_cases hk : (a.spanish == key) = true
        · rw [List.find?_cons_of_pos _ (by simp [ha, hk])]
          simp [ha, hk, dictGet?, dictInsert]
        · rw [List.find?_cons_of_neg _ (by simp [ha, hk]), List.find?_nil]
          simp [ha, hk, dictGet?, dictInsert]
      · rw [List.find?_cons_of_neg _ (by simp [ha]), List.find?_nil]
        simp [ha]

lemma load_existing_analyses_lookup (rows : List CsvRow) (key : String) :
    dictGet? (load_existing_analyses rows) key =
      (rows.reverse.find? (fun r =>
          pyStrip (r.ai_analysis.getD "") ≠ "" ∧ r.spanish == key)).map
        (fun r => pyStrip (r.ai_analysis.getD "")) := by
  have h := load_existing_analyses_aux rows [] key
  rw [show load_existing_analyses rows = rows.foldl (fun d r =>
      let analysis := pyStrip (r.ai_analysis.getD "")
      if analysis ≠ "" then dictInsert d r.spanish analysis else d) [] from rfl]
  rw [h]
  cases hfind : rows.reverse.find? (fun r =>
      pyStrip (r.ai_analysis.getD "") ≠ "" ∧ r.spanish == key) with
  | none => rfl
  | some r => simp

/-- C3 counterexample: on a payload where two senses share word id 1, two
translations share sense id 10, and two CSV rows share the word `hola`, each
mapping binds the key to the LATER entry, refuting first-occurrence-wins. -/
theorem lookup_first_wins_counterexample :
    dictGet? (word_to_sense c3exPayload) (some 1) =
      some ⟨some 20, "", "", some 1, ""⟩
    ∧ ¬ (dictGet? (word_to_sense c3exPayload) (some 1) =
      some ⟨some 10, "", "", some 4, ""⟩)
    ∧ dictGet? (sense_to_translation c3exPayload) (some 10) =
      some ⟨some "second", some 200⟩
    ∧ ¬ (dictGet? (sense_to_translation c3exPayload) (some 10) =
      some ⟨some "first", some 100⟩)
    ∧ dictGet? (load_existing_analyses c3exRows) "hola" = some "second analysis"
    ∧ ¬ (dictGet? (load_existing_analyses c3exRows) "hola" =
      some "first analysis") := by
  refine ⟨by decide, by decide, by decide, by decide, by decide, by decide⟩

/-- C3 amended: in lookup-table construction the LAST occurrence wins for
every duplicated key: `word_to_sense` binds a word id to the latest sense
with that id, `sense_to_translation` binds a sense id to the latest
translation with that id, and `load_existing_analyses` binds a source word
to the latest row with that word among rows whose stripped analysis cell is
non-empty. -/
theorem lookup_last_occurrence_wins (d : PayloadData) (k : Option Nat)
    (rows : List CsvRow) (key : String) :
    dictGet? (word_to_sense d) k =
      (d.senses.reverse.find? (fun s => s.wordId == k)).map storedOfSense
    ∧ dictGet? (sense_to_translation d) k =
      (d.translations.reverse.find? (fun t => t.senseId == k)).map
        (fun t => (⟨t.translation, t.id⟩ : StoredTranslation))
    ∧ dictGet? (load_existing_analyses rows) key =
      (rows.reverse.find? (fun r =>
          pyStrip (r.ai_analysis.getD "") ≠ "" ∧ r.spanish == key)).map
        (fun r => pyStrip (r.ai_analysis.getD "")) :=
  ⟨word_to_sense_lookup d k, sense_to_translation_lookup d k,
   load_existing_analyses_lookup rows key⟩

/-! ## Claim theorems: C4 -/

/-- C4: against a fully enriched store the pipeline is idempotent. In
`analyze_vocab`, when every data row with a non-empty Spanish word has
non-sentinel, non-empty values in both enrichment cells, the classification
flags no row, so the enrichment loop runs over an empty list and issues
zero generation calls.  In `sync_vocab`, when every scraped word is a key
of the loaded analyses, the dedup loop makes zero generation calls (and
classifies zero words as new). -/
theorem fully_enriched_idempotent (sheet1 sheet2 : List (List String))
    (existing : List (String × String)) (words : List ScrapedWord) :
    ((∀ i, 1 ≤ i → i < sheet1.length →
        (padTo5 (sheet1.getD i [])).getD 1 "" ≠ "" →
        needs_generation ((padTo5 (sheet2.getD i [])).getD 1 "") = false
        ∧ needs_generation ((padTo5 (sheet2.getD i [])).getD 4 "") = false) →
      words_to_process sheet1 sheet2 = []
      ∧ ∀ items : List (WordTask × Option String × Option String),
          items.map (fun it => it.1) = words_to_process sheet1 sheet2 →
          geminiCallCount items = 0)
    ∧ ((∀ w ∈ words, (dictGet? existing w.spanish).isSome = true) →
        sync_new_count existing words = 0) := by
  constructor
  · intro h
    have hempty : words_to_process sheet1 sheet2 = [] := by
      unfold words_to_process
      rw [List.filterMap_eq_nil_iff]
      intro i hi
      rw [List.mem_range'_1] at hi
      by_cases hsp : (padTo5 (sheet1.getD i [])).getD 1 "" = ""
      · unfold classifyRow
        rw [if_pos hsp]
      · obtain ⟨hna, hno⟩ := h i hi.1 (by omega) hsp
        unfold classifyRow
        rw [if_neg hsp, hna, hno]
        rfl
    refine ⟨hempty, ?_⟩
    intro items hitems
    rw [hempty] at hitems
    rw [List.map_eq_nil_iff] at hitems
    rw [hitems]
    rfl
  · intro hall
    have haux : ∀ (ws : List ScrapedWord) (n : Nat),
        (∀ w ∈ ws, (dictGet? existing w.spanish).isSome = true) →
        ws.foldl (fun n w =>
          if (dictGet? existing w.spanish).isSome then n else n + 1) n = n := by
      intro ws
      induction ws with
      | nil => intro n _; rfl
      | cons a as ih =>
        intro n hws
        simp only [List.foldl_cons]
        rw [if_pos (hws a (by simp))]
        exact ih n (fun w hw => hws w (by simp [hw]))
    exact haux words 0 hall

/-- C4 witness: the theorem applied to a one-word store that is fully
enriched: no row is flagged, the empty run makes zero calls, and the sync
dedup loop generates nothing. -/
theorem fully_enriched_idempotent_witness :
    words_to_process c2exSheet1 c4exSheet2 = []
    ∧ geminiCallCount [] = 0
    ∧ sync_new_count c4exExisting c4exWords = 0 := by
  have h := fully_enriched_idempotent c2exSheet1 c4exSheet2 c4exExisting c4exWords
  have h1 := h.1 (by
    intro i h1 h2 hsp
    have hi : i = 1 := by
      have : c2exSheet1.length = 2 := by decide
      omega
    subst hi
    exact ⟨by decide, by decide⟩)
  exact ⟨h1.1, h1.2 [] (by rw [h1.1]; rfl), h.2 (by decide)⟩

/-! ## Claim theorems: C5 -/

lemma wordUpdates_length_le (t : WordTask) (ra ro : Option String) :
    (wordUpdates t ra ro).length ≤ 2 := by
  unfold wordUpdates
  cases hna : t.need_analysis <;> cases ra <;>
    cases hno : t.need_other <;> cases ro <;> simp

lemma foldl_append_init {α β : Type} (u : β → List α) (items : List β) (a : List α) :
    items.foldl (fun acc it => acc ++ u it) a
      = a ++ items.foldl (fun acc it => acc ++ u it) [] := by
  induction items generalizing a with
  | nil => simp
  | cons x xs ih =>
    simp only [List.foldl_cons, List.nil_append]
    rw [ih (a ++ u x), ih (u x), List.append_assoc]

lemma allUpdates_cons (x : WordTask × Option String × Option String)
    (xs : List (WordTask × Option String × Option String)) :
    allUpdates (x :: xs) = wordUpdates x.1 x.2.1 x.2.2 ++ allUpdates xs := by
  unfold allUpdates
  simp only [List.foldl_cons, List.nil_append]
  exact foldl_append_init _ xs _

lemma enrichWord_eq (st : EnrichState) (it : WordTask × Option String × Option String) :
    enrichWord st it =
      if BATCH_SIZE ≤ st.pending.length + (wordUpdates it.1 it.2.1 it.2.2).length then
        ⟨[], st.flushes ++ [st.pending.length + (wordUpdates it.1 it.2.1 it.2.2).length],
         st.store ++ (st.pending ++ wordUpdates it.1 it.2.1 it.2.2)⟩
      else ⟨st.pending ++ wordUpdates it.1 it.2.1 it.2.2, st.flushes, st.store⟩ := by
  unfold enrichWord flushIfFull
  dsimp only
  rw [List.length_append]

lemma finalFlush_of_ne (st : EnrichState) (h : ¬ st.pending = []) :
    finalFlush st = ⟨[], st.flushes ++ [st.pending.length], st.store ++ st.pending⟩ := by
  unfold finalFlush
  rw [if_neg h]

lemma enrich_foldl_inv (items : List (WordTask × Option String × Option String)) :
    ∀ st : EnrichState,
      st.pending.length < BATCH_SIZE →
      (∀ f ∈ st.flushes, BATCH_SIZE ≤ f ∧ f ≤ BATCH_SIZE + 1) →
      st.store.length = st.flushes.sum →
      (items.foldl enrichWord st).pending.length < BATCH_SIZE
      ∧ (∀ f ∈ (items.foldl enrichWord st).flushes,
          BATCH_SIZE ≤ f ∧ f ≤ BATCH_SIZE + 1)
      ∧ (items.foldl enrichWord st).store.length
          = (items.foldl enrichWord st).flushes.sum
      ∧ (items.foldl enrichWord st).store ++ (items.foldl enrichWord st).pending
          = st.store ++ st.pending ++ allUpdates items := by
  induction items with
  | nil =>
    intro st h1 h2 h3
    refine ⟨h1, h2, h3, ?_⟩
    simp [allUpdates]
  | cons it its ih =>
    intro st h1 h2 h3
    simp only [List.foldl_cons]
    have hwu := wordUpdates_length_le it.1 it.2.1 it.2.2
    rw [enrichWord_eq]
    by_cases hfull :
        BATCH_SIZE ≤ st.pending.length + (wordUpdates it.1 it.2.1 it.2.2).length
    · rw [if_pos hfull]
      have hres := ih
        ⟨[], st.flushes ++ [st.pending.length + (wordUpdates it.1 it.2.1 it.2.2).length],
         st.store ++ (st.pending ++ wordUpdates it.1 it.2.1 it.2.2)⟩
        (by simp [BATCH_SIZE])
        (by
          intro f hf
          simp only [List.mem_append, List.mem_singleton] at hf
          rcases hf with hf | hf
          · exact h2 f hf
          · subst hf
            exact ⟨hfull, by omega⟩)
        (by
          simp only [List.length_append, List.sum_append, List.sum_cons, List.sum_nil]
          omega)
      refine ⟨hres.1, hres.2.1, hres.2.2.1, ?_⟩
      rw [hres.2.2.2, allUpdates_cons]
      simp [List.append_assoc]
    · rw [if_neg hfull]
      have hres := ih ⟨st.pending ++ wordUpdates it.1 it.2.1 it.2.2, st.flushes, st.store⟩
        (by simp only [List.length_append]; omega) h2 h3
      refine ⟨hres.1, hres.2.1, hres.2.2.1, ?_⟩
      rw [hres.2.2.2, allUpdates_cons]
      simp [List.append_assoc]

lemma flush_sum_bounds (l : List Nat)
    (h : ∀ f ∈ l, BATCH_SIZE ≤ f ∧ f ≤ BATCH_SIZE + 1) :
    BATCH_SIZE * l.length ≤ l.sum ∧ l.sum ≤ (BATCH_SIZE + 1) * l.length := by
  induction l with
  | nil => simp
  | cons a as ih =>
    obtain ⟨ha1, ha2⟩ := h a (by simp)
    obtain ⟨ih1, ih2⟩ := ih (fun f hf => h f (by simp [hf]))
    simp only [List.sum_cons, List.length_cons, BATCH_SIZE] at *
    omega

set_option maxRecDepth 8000 in
/-- C5 counterexample: a run with exactly 23 successful field completions
whose flush sizes are 11, 10 and 2 — not two of size 10 and one of size 3 —
because the per-word flush check can find 11 buffered updates when a
two-field word pushes the buffer past the threshold. -/
theorem batch_flush_counterexample :
    totalCompletions c5exItems = 23
    ∧ ¬ ((runEnrichment c5exItems).flushes = [10, 10, 3])
    ∧ (runEnrichment c5exItems).flushes = [11, 10, 2] := by
  refine ⟨by decide, by decide, by decide⟩

/-- C5 amended: with batch size 10, every run with exactly 23 successful
field completions performs exactly 3 batched writes; each write empties the
buffer, the first two have size 10 or 11 (exactly 10, 10, 3 when every word
completes at most one field, as the all-singles fixture shows), the sizes
sum to 23, and afterwards all 23 completed values are in the store, in
completion order. -/
theorem batch_flush_amended (items : List (WordTask × Option String × Option String))
    (h23 : totalCompletions items = 23) :
    (runEnrichment items).flushes.length = 3
    ∧ (runEnrichment items).flushes.sum = 23
    ∧ (∀ f ∈ (runEnrichment items).flushes.take 2, f = 10 ∨ f = 11)
    ∧ (runEnrichment items).pending = []
    ∧ (runEnrichment items).store = allUpdates items
    ∧ (runEnrichment items).store.length = 23
    ∧ (∀ st : EnrichState, BATCH_SIZE ≤ st.pending.length →
        (flushIfFull st).pending = []) := by
  have hinv := enrich_foldl_inv items ⟨[], [], []⟩
    (by simp [BATCH_SIZE]) (by simp) (by simp)
  set st' := items.foldl enrichWord (⟨[], [], []⟩ : EnrichState) with hst'
  obtain ⟨hpend, hfl, hsum, hconcat⟩ := hinv
  simp only [List.append_nil, List.nil_append] at hconcat
  have hlen : st'.store.length + st'.pending.length = 23 := by
    have hc := congrArg List.length hconcat
    simp only [List.length_append] at hc
    rw [hc]
    exact h23
  have hbounds := flush_sum_bounds st'.flushes hfl
  have hrun : runEnrichment items = finalFlush st' := by
    rw [hst']
    rfl
  by_cases hpe : st'.pending = []
  · exfalso
    have hplen : st'.pending.length = 0 := by rw [hpe]; rfl
    simp only [BATCH_SIZE] at hbounds hpend
    omega
  · rw [hrun, finalFlush_of_ne st' hpe]
    dsimp only
    have hp1 : 1 ≤ st'.pending.length := by
      cases hq : st'.pending with
      | nil => exact absurd hq hpe
      | cons a l => simp [hq]
    have hL : st'.flushes.length = 2 := by
      simp only [BATCH_SIZE] at hbounds hpend
      omega
    refine ⟨?_, ?_, ?_, rfl, ?_, ?_, ?_⟩
    · simp [hL]
    · simp only [List.sum_append, List.sum_cons, List.sum_nil]
      omega
    · intro f hf
      rw [show (2 : Nat) = st'.flushes.length from hL.symm, List.take_left] at hf
      have hb := hfl f hf
      simp only [BATCH_SIZE] at hb
      omega
    · exact hconcat
    · simp only [List.length_append]
      omega
    · intro st hst
      unfold flushIfFull
      rw [if_pos hst]

set_option maxRecDepth 8000 in
/-- C5 witness: the amended theorem applied to the all-singles fixture with
its 23 completions; that fixture's flush sizes are moreover exactly
10, 10, 3. -/
theorem batch_flush_amended_witness :
    totalCompletions c5exAllSingles = 23
    ∧ (runEnrichment c5exAllSingles).flushes.length = 3
    ∧ (runEnrichment c5exAllSingles).store.length = 23
    ∧ (runEnrichment c5exAllSingles).flushes = [10, 10, 3] := by
  have h := batch_flush_amended c5exAllSingles (by decide)
  exact ⟨by decide, h.1, h.2.2.2.2.2.1, by decide⟩

/-! ## Order lemmas for the export sort key -/

lemma charToNat_inj {a b : Char} (h : a.toNat = b.toNat) : a = b :=
  Char.eq_of_val_eq (UInt32.toNat.inj h)

lemma listLtB_irrefl (a : List Char) : listLtB a a = false := by
  induction a with
  | nil => rfl
  | cons x xs ih => simp [listLtB, ih]

lemma listLtB_trans {a b c : List Char} (hab : listLtB a b = true)
    (hbc : listLtB b c = true) : listLtB a c = true := by
  induction a generalizing b c with
  | nil =>
    cases c with
    | nil =>
      cases b with
      | nil => exact absurd hab (by simp [listLtB])
      | cons y ys => exact absurd hbc (by simp [listLtB])
    | cons z zs => rfl
  | cons x xs ih =>
    cases b with
    | nil => exact absurd hab (by simp [listLtB])
    | cons y ys =>
      cases c with
      | nil => exact absurd hbc (by simp [listLtB])
      | cons z zs =>
        simp only [listLtB] at hab hbc ⊢
        by_cases h1 : x.toNat < y.toNat
        · rw [if_pos h1] at hab
          by_cases h2 : y.toNat < z.toNat
          · rw [if_pos (show x.toNat < z.toNat by omega)]
          · rw [if_neg h2] at hbc
            by_cases h2' : z.toNat < y.toNat
            · rw [if_pos h2'] at hbc; exact absurd hbc (by simp)
            · rw [if_pos (show x.toNat < z.toNat by omega)]
        · rw [if_neg h1] at hab
          by_cases h1' : y.toNat < x.toNat
          · rw [if_pos h1'] at hab; exact absurd hab (by simp)
          · rw [if_neg h1'] at hab
            by_cases h2 : y.toNat < z.toNat
            · rw [if_pos (show x.toNat < z.toNat by omega)]
            · rw [if_neg h2] at hbc
              by_cases h2' : z.toNat < y.toNat
              · rw [if_pos h2'] at hbc; exact absurd hbc (by simp)
              · rw [if_neg h2'] at hbc
                rw [if_neg (show ¬ x.toNat < z.toNat by omega),
                    if_neg (show ¬ z.toNat < x.toNat by omega)]
                exact ih hab hbc

lemma listLtB_trichotomy (a : List Char) :
    ∀ b : List Char, listLtB a b = true ∨ a = b ∨ listLtB b a = true := by
  induction a with
  | nil =>
    intro b
    cases b with
    | nil => exact Or.inr (Or.inl rfl)
    | cons y ys => exact Or.inl rfl
  | cons x xs ih =>
    intro b
    cases b with
    | nil => exact Or.inr (Or.inr rfl)
    | cons y ys =>
      by_cases h1 : x.toNat < y.toNat
      · left; simp [listLtB, h1]
      · by_cases h2 : y.toNat < x.toNat
        · right; right; simp [listLtB, h2]
        · have hxy : x = y := charToNat_inj (by omega)
          subst hxy
          rcases ih ys with h | h | h
          · left; simp [listLtB, h]
          · right; left; rw [h]
          · right; right; simp [listLtB, h]

lemma listLtB_asymm {a b : List Char} (h : listLtB a b = true) :
    listLtB b a = false := by
  by_contra hc
  have hba : listLtB b a = true := by
    cases hq : listLtB b a with
    | false => exact absurd hq hc
    | true => rfl
  have := listLtB_trans h hba
  rw [listLtB_irrefl] at this
  exact absurd this (by simp)

lemma listLeB_eq_not_listLtB (a : List Char) :
    ∀ b : List Char, listLeB a b = !listLtB b a := by
  induction a with
  | nil => intro b; cases b <;> rfl
  | cons x xs ih =>
    intro b
    cases b with
    | nil => rfl
    | cons y ys =>
      simp only [listLeB, listLtB]
      by_cases h1 : x.toNat < y.toNat
      · rw [if_pos h1, if_neg (show ¬ y.toNat < x.toNat by omega), if_pos h1]
        rfl
      · rw [if_neg h1]
        by_cases h2 : y.toNat < x.toNat
        · rw [if_pos h2, if_pos h2]
          rfl
        · rw [if_neg h2, if_neg h2, if_neg h1]
          exact ih ys

lemma exportLe_total (a b : ScrapedWord) : exportLe a b ∨ exportLe b a := by
  unfold exportLe
  rcases listLtB_trichotomy a.date_added.data b.date_added.data with h | h | h
  · left; simp [h]
  · rcases listLtB_trichotomy (pyLower a.spanish).data (pyLower b.spanish).data
      with h' | h' | h'
    · left
      simp [h, listLeB_eq_not_listLtB, listLtB_asymm h']
    · left
      simp [h, h', listLeB_eq_not_listLtB, listLtB_irrefl]
    · right
      simp [h, listLeB_eq_not_listLtB, listLtB_asymm h']
  · right; simp [h]

lemma exportLe_trans (a b c : ScrapedWord) (hab : exportLe a b)
    (hbc : exportLe b c) : exportLe a c := by
  unfold exportLe at hab hbc ⊢
  simp only [Bool.or_eq_true, Bool.and_eq_true, beq_iff_eq] at hab hbc ⊢
  rcases hab with hab | ⟨hab1, hab2⟩
  · rcases hbc with hbc | ⟨hbc1, hbc2⟩
    · exact Or.inl (listLtB_trans hab hbc)
    · exact Or.inl (hbc1 ▸ hab)
  · rcases hbc with hbc | ⟨hbc1, hbc2⟩
    · exact Or.inl (hab1 ▸ hbc)
    · refine Or.inr ⟨hab1.trans hbc1, ?_⟩
      rw [listLeB_eq_not_listLtB] at hab2 hbc2 ⊢
      simp only [Bool.not_eq_true'] at hab2 hbc2 ⊢
      by_contra hc
      have hca : listLtB (pyLower c.spanish).data (pyLower a.spanish).data = true := by
        cases hq : listLtB (pyLower c.spanish).data (pyLower a.spanish).data with
        | false => exact absurd hq hc
        | true => rfl
      rcases listLtB_trichotomy (pyLower a.spanish).data (pyLower b.spanish).data
        with h | h | h
      · have := listLtB_trans hca h
        rw [this] at hbc2
        exact absurd hbc2 (by simp)
      · rw [← h] at hbc2
        rw [hca] at hbc2
        exact absurd hbc2 (by simp)
      · rw [h] at hab2
        exact absurd hab2 (by simp)

lemma export_sorted (words : List ScrapedWord) :
    List.Sorted exportLe (export_to_csv words).1 := by
  haveI : IsTotal ScrapedWord exportLe := ⟨exportLe_total⟩
  haveI : IsTrans ScrapedWord exportLe := ⟨exportLe_trans⟩
  exact List.sorted_insertionSort exportLe words

lemma export_perm (words : List ScrapedWord) :
    (export_to_csv words).1.Perm words :=
  List.perm_insertionSort exportLe words

/-! ## Claim theorems: C6 -/

/-- C6: full export is deterministic: the record list is sorted by
(date added ascending, Spanish word lower-cased ascending), the output is a
fixed header row followed by exactly one row per record (so one more row
than records), absent fields are written as the empty string, and in
particular `amor` (2024-01-05) is emitted before `Zorro` (2024-02-01). -/
theorem export_csv_deterministic (words : List ScrapedWord) :
    (export_to_csv words).2.length = words.length + 1
    ∧ (export_to_csv words).2
        = exportHeader :: (export_to_csv words).1.map exportRow
    ∧ List.Sorted exportLe (export_to_csv words).1
    ∧ (export_to_csv words).1.Perm words
    ∧ (∀ w : ScrapedWord, w.ai_analysis = none → (exportRow w).getD 5 "" = "")
    ∧ (∀ w : ScrapedWord, w.english = none → (exportRow w).getD 2 "" = "")
    ∧ (export_to_csv [c6exZorro, c6exAmor]).2
        = [exportHeader, exportRow c6exAmor, exportRow c6exZorro] := by
  refine ⟨?_, rfl, export_sorted words, export_perm words, ?_, ?_, by decide⟩
  · show (exportHeader :: (export_to_csv words).1.map exportRow).length = _
    rw [List.length_cons, List.length_map, (export_perm words).length_eq]
  · intro w h
    simp [exportRow, h]
  · intro w h
    simp [exportRow, h]

/-- C6 witness: a record with no stored analysis exports an empty analysis
cell, and the two-record fixture is emitted with `amor` first. -/
theorem export_csv_deterministic_witness :
    (exportRow ⟨"sol", some "sun", "", "noun", "70", "2024-03-01", none⟩).getD 5 "" = ""
    ∧ (export_to_csv [c6exZorro, c6exAmor]).2
        = [exportHeader, exportRow c6exAmor, exportRow c6exZorro] :=
  ⟨(export_csv_deterministic []).2.2.2.2.1 _ rfl,
   (export_csv_deterministic []).2.2.2.2.2.2⟩

/-! ## Claim theorems: C10 -/

/-- C10: `export_to_csv` sorts the caller's list in place: the list the
caller holds afterwards is the sorted list, a permutation of the input in
export order — no record is added, removed or modified (every record keeps
its multiplicity) — and the emitted data rows follow exactly that permuted
list. -/
theorem export_sorts_callers_list (words : List ScrapedWord) :
    (export_to_csv words).1 = List.insertionSort exportLe words
    ∧ (export_to_csv words).1.Perm words
    ∧ List.Sorted exportLe (export_to_csv words).1
    ∧ (∀ w : ScrapedWord, (export_to_csv words).1.count w = words.count w)
    ∧ (export_to_csv words).2.tail = (export_to_csv words).1.map exportRow :=
  ⟨rfl, export_perm words, export_sorted words,
   fun w => (export_perm words).count_eq w, rfl⟩

/-! ## Claim theorems: C7 -/

/-- C7: the joiner is total over word entries: an entry whose source text is
missing or empty yields no record and no error (it is skipped silently); an
entry with a non-empty source but no matching sense yields a record with
empty translation and part-of-speech fields; and a joined record is never
dropped: it appears in the scraper's output. -/
theorem joiner_total (d : PayloadData) (w : RawWordEntry) :
    ((w.source = none ∨ w.source = some "") →
      joinWord (word_to_sense d) (sense_to_translation d) (translation_to_date d)
        w = none)
    ∧ (∀ s, w.source = some s → s ≠ "" →
        dictGet? (word_to_sense d) w.id = none →
        joinWord (word_to_sense d) (sense_to_translation d) (translation_to_date d)
          w = some ⟨s, some "", "", "", w.popularity,
                    (dictGet? (translation_to_date d) none).getD "", none⟩)
    ∧ (∀ r : ScrapedWord, w ∈ d.words →
        joinWord (word_to_sense d) (sense_to_translation d) (translation_to_date d)
          w = some r →
        r ∈ scrape_words d) := by
  refine ⟨?_, ?_, ?_⟩
  · intro h
    rcases h with h | h
    · unfold joinWord
      rw [h]
    · unfold joinWord
      rw [h]
      simp
  · intro s hs hne hsense
    unfold joinWord
    rw [hs]
    simp only [if_neg hne, hsense]
    simp [pos_label]
  · intro r hw hr
    exact List.mem_filterMap.mpr ⟨w, hw, hr⟩

/-- C7 witness: in the fixture payload the empty-source and missing-source
entries yield no record, while `casa` — which has no sense — yields a
record with empty translation and part-of-speech that is present in the
scraper output. -/
theorem joiner_total_witness :
    joinWord (word_to_sense c7exPayload) (sense_to_translation c7exPayload)
      (translation_to_date c7exPayload) ⟨some 1, some "", "10"⟩ = none
    ∧ joinWord (word_to_sense c7exPayload) (sense_to_translation c7exPayload)
      (translation_to_date c7exPayload) ⟨some 2, none, "20"⟩ = none
    ∧ joinWord (word_to_sense c7exPayload) (sense_to_translation c7exPayload)
      (translation_to_date c7exPayload) ⟨some 3, some "casa", "30"⟩
        = some ⟨"casa", some "", "", "", "30", "", none⟩
    ∧ (⟨"casa", some "", "", "", "30", "", none⟩ : ScrapedWord) ∈ scrape_words c7exPayload := by
  refine ⟨?_, ?_, ?_, ?_⟩
  · exact (joiner_total c7exPayload ⟨some 1, some "", "10"⟩).1 (Or.inr rfl)
  · exact (joiner_total c7exPayload ⟨some 2, none, "20"⟩).1 (Or.inl rfl)
  · exact (joiner_total c7exPayload ⟨some 3, some "casa", "30"⟩).2.1 "casa"
      rfl (by decide) (by decide)
  · exact (joiner_total c7exPayload ⟨some 3, some "casa", "30"⟩).2.2 _
      (by decide)
      ((joiner_total c7exPayload ⟨some 3, some "casa", "30"⟩).2.1 "casa"
        rfl (by decide) (by decide))

/-! ## Claim theorems: C8 -/

/-- C8 counterexample: in `sync_vocab`, a run without `GEMINI_API_KEY` does
not fail at startup: `generate_ai_analysis` silently returns the empty
string, making no API call — the missing secret is a silently-ignored
condition there, refuting the claim for that program. -/
theorem missing_secret_counterexample :
    generate_ai_analysis none (some "analysis text") = ("", false)
    ∧ generate_ai_analysis (some "") (some "analysis text") = ("", false) :=
  ⟨rfl, rfl⟩

/-- C8 amended: in `analyze_vocab`, a run started without `GEMINI_API_KEY`,
or with it but without `GOOGLE_SHEETS_CREDENTIALS`, exits at startup with
status 1 and an explanatory message, before any generation or store call
(only with both secrets does startup proceed); in `sync_vocab`, however, a
missing generation API key is not fatal: each generation request silently
returns an empty analysis without calling the API. -/
theorem missing_secret_amended (gemini creds : Option String)
    (res : Option String) :
    (falsyEnv gemini = true →
      analyze_startup gemini creds =
        .exited 1 "Error: GEMINI_API_KEY environment variable not set")
    ∧ (falsyEnv gemini = false → falsyEnv creds = true →
      analyze_startup gemini creds =
        .exited 1 "Error: GOOGLE_SHEETS_CREDENTIALS environment variable not set")
    ∧ (falsyEnv gemini = false → falsyEnv creds = false →
      analyze_startup gemini creds = .proceed (gemini.getD "") (creds.getD ""))
    ∧ (falsyEnv gemini = true →
      generate_ai_analysis gemini res = ("", false)) := by
  refine ⟨?_, ?_, ?_, ?_⟩
  · intro h
    unfold analyze_startup
    rw [if_pos h]
  · intro h1 h2
    unfold analyze_startup
    rw [if_neg (by simp [h1]), if_pos h2]
  · intro h1 h2
    unfold analyze_startup
    rw [if_neg (by simp [h1]), if_neg (by simp [h2])]
  · intro h
    unfold generate_ai_analysis
    rw [if_pos h]

/-- C8 witness: the amended theorem at concrete environments: no key at all,
a key but no credentials blob, and both present. -/
theorem missing_secret_amended_witness :
    analyze_startup none (some "creds") =
      .exited 1 "Error: GEMINI_API_KEY environment variable not set"
    ∧ analyze_startup (some "key") none =
      .exited 1 "Error: GOOGLE_SHEETS_CREDENTIALS environment variable not set"
    ∧ analyze_startup (some "key") (some "creds") = .proceed "key" "creds"
    ∧ generate_ai_analysis none (some "analysis") = ("", false) :=
  ⟨(missing_secret_amended none (some "creds") none).1 rfl,
   (missing_secret_amended (some "key") none none).2.1 (by decide) rfl,
   (missing_secret_amended (some "key") (some "creds") none).2.2.1
     (by decide) (by decide),
   (missing_secret_amended none (some "creds") (some "analysis")).2.2.2 rfl⟩

/-! ## Claim theorems: C9 -/

lemma getD_replicate_empty (n j : Nat) :
    (List.replicate n ("" : String)).getD j "" = "" := by
  rw [List.getD_eq_getElem?_getD, List.getElem?_replicate]
  by_cases h : j < n
  · rw [if_pos h]
    rfl
  · rw [if_neg h]
    rfl

/-- C9 counterexample: an enrichment row with fewer than 5 cells whose
column B already holds a real analysis is NOT classified as needing both
fields — only the missing column E — refuting the claim's "needs both"
conclusion for short rows. -/
theorem short_row_needs_both_counterexample :
    (c9exSheet2Short.getD 1 []).length < 5
    ∧ (padTo5 (c2exSheet1.getD 1 [])).getD 1 "" ≠ ""
    ∧ words_to_process c2exSheet1 c9exSheet2Short
        = [⟨2, "hola", "hello", false, true⟩] := by
  refine ⟨by decide, by decide, by decide⟩

/-- C9 amended: the classification is total over mismatched store shapes:
padding extends any row to at least width 5 with empty strings (preserving
the cells that are present), so no access is out of range, and a data row
whose index lies past the end of the enrichment sheet and whose source word
is non-empty is classified as needing both enrichment fields (a short but
present row keeps its cell values, so it needs exactly the fields whose
cells are empty or sentinels). -/
theorem padding_total_amended (sheet1 sheet2 : List (List String)) (i : Nat)
    (r : List String) :
    5 ≤ (padTo5 r).length
    ∧ (∀ j, j < r.length → (padTo5 r).getD j "" = r.getD j "")
    ∧ (∀ j, r.length ≤ j → (padTo5 r).getD j "" = "")
    ∧ (1 ≤ i → i < sheet1.length → sheet2.length ≤ i →
        (padTo5 (sheet1.getD i [])).getD 1 "" ≠ "" →
        ∃ t ∈ words_to_process sheet1 sheet2,
          t.row = i + 1 ∧ t.need_analysis = true ∧ t.need_other = true) := by
  refine ⟨?_, ?_, ?_, ?_⟩
  · unfold padTo5
    rw [List.length_append, List.length_replicate]
    omega
  · intro j hj
    unfold padTo5
    rw [List.getD_eq_getElem?_getD, List.getElem?_append_left hj,
        ← List.getD_eq_getElem?_getD]
  · intro j hj
    unfold padTo5
    rw [List.getD_eq_getElem?_getD, List.getElem?_append_right hj,
        ← List.getD_eq_getElem?_getD]
    exact getD_replicate_empty _ _
  · intro h1 h2 h3 hsp
    have hs2 : sheet2.getD i [] = [] := by
      rw [List.getD_eq_getElem?_getD, List.getElem?_eq_none h3]
      rfl
    have hcell1 : (padTo5 (sheet2.getD i [])).getD 1 "" = "" := by
      rw [hs2]
      decide
    have hcell4 : (padTo5 (sheet2.getD i [])).getD 4 "" = "" := by
      rw [hs2]
      decide
    have h_eq : classifyRow sheet2 i (sheet1.getD i []) =
        some ⟨i + 1, (padTo5 (sheet1.getD i [])).getD 1 "",
              (padTo5 (sheet1.getD i [])).getD 2 "", true, true⟩ := by
      unfold classifyRow
      rw [if_neg hsp, hcell1, hcell4,
          show needs_generation "" = true from by decide]
      rfl
    refine ⟨_, List.mem_filterMap.mpr ⟨i, ?_, h_eq⟩, rfl, rfl, rfl⟩
    rw [List.mem_range'_1]
    omega

/-- C9 witness: the amended theorem applied to a 2-cell row (its present
cells are preserved, its missing cells read as empty) and to the
header-only Sheet2 fixture, where the data row is flagged for both fields. -/
theorem padding_total_amended_witness :
    (padTo5 ["a", "b"]).getD 1 "" = ["a", "b"].getD 1 ""
    ∧ (padTo5 ["a", "b"]).getD 4 "" = ""
    ∧ ∃ t ∈ words_to_process c2exSheet1 c9exSheet2Past,
        t.row = 2 ∧ t.need_analysis = true ∧ t.need_other = true :=
  ⟨(padding_total_amended [] [] 0 ["a", "b"]).2.1 1 (by decide),
   (padding_total_amended [] [] 0 ["a", "b"]).2.2.1 4 (by decide),
   (padding_total_amended c2exSheet1 c9exSheet2Past 1 []).2.2.2
     (by decide) (by decide) (by decide) (by decide)⟩
